import Mathlib

/-!
Shallow embedding of the CSP activity scheduler (src/main6(CSP).py).

Modelling conventions:
- Timestamps are natural numbers counting minutes from a fixed origin. The
  Python code manipulates datetime values, but the constraint logic only adds
  time deltas and compares, so minutes-since-origin is a faithful carrier.
- Activity durations are natural numbers counting half-hour units. The input
  widget offers durations from 0.5 to 12.0 hours in steps of 0.5, so a Python
  duration d (hours, float) satisfies d = dur / 2 exactly; int(d * 2) = dur
  and int(d) = dur / 2 (truncating natural division), and timedelta(hours=d)
  is 30 * dur minutes.
- The weather dictionary built in solve_csp maps a timestamp to a full
  observation row; the constraint logic reads only the chance_of_rain field,
  so it is modelled as a function from a timestamp to an optional
  chance-of-rain value, with a dict miss (get returning None) as none.
- The third-party backtracking solver is deterministic and complete. It is
  modelled by its observable behaviour: the first constraint-consistent total
  assignment in the depth-first order induced by activity order and domain
  order, and none when there are no variables (the library returns None for
  an empty variable dictionary) or when no consistent assignment exists.
- Two library calls raise exceptions that the program never catches, and the
  Boolean definitions below deliberately model only the non-raising paths;
  the raising paths are modelled separately by the error-aware definitions
  weather_constraintE and solve_cspE (results in Except String):
  truthiness of a looked-up observation row — a multi-element pandas Series —
  raises ValueError whenever an observation is present, and addVariable in
  python-constraint raises ValueError when a domain list is empty.
-/

/-- Weather category labels offered by the input widget. -/
inductive Pref where
  | Sunny
  | Cloudy
  | Rainy
  deriving DecidableEq

/-- An activity as assembled by add_activity_input: a name, a duration in
half-hour units, and a list of weather preference labels. -/
structure Activity where
  name : String
  dur : Nat
  prefs : List Pref
  deriving DecidableEq

/-- The condition_map table of weather_condition_check: the per-category
acceptance predicate on a chance-of-rain value. -/
def condition_map (preference : Pref) (rain_chance : Nat) : Bool :=
  match preference with
  | .Sunny => rain_chance < 20
  | .Cloudy => 20 ≤ rain_chance && rain_chance ≤ 70
  | .Rainy => rain_chance > 70

/-- weather_condition_check: true when at least one preference in the list
accepts the chance of rain; the loop with early return is List.any. -/
def weather_condition_check (chance_of_rain : Nat) (preferences : List Pref) : Bool :=
  preferences.any fun preference => condition_map preference chance_of_rain

/-- weather_constraint, dict-miss paths only: for each whole-hour offset
below int(duration) the observation at start_time + offset hours is looked
up; a dict miss (None, falsy) is skipped by the truthiness guard. Here dur
is in half-hour units, so int(duration in hours) = dur / 2, and one hour is
60 minutes. When an observation IS present, the source does not reach the
predicate check: truthiness of the multi-element pandas Series row raises
ValueError, which weather_constraintE models; the some-branch below states
the check the code was written to perform. -/
def weather_constraint (start_time : Nat) (dur : Nat) (preferences : List Pref)
    (weather_dict : Nat → Option Nat) : Bool :=
  (List.range (dur / 2)).all fun hour_offset =>
    match weather_dict (start_time + 60 * hour_offset) with
    | some chance_of_rain => weather_condition_check chance_of_rain preferences
    | none => true

/-- The hour loop of weather_constraint with the pandas truthiness raise: a
dict miss (None, falsy) is skipped, but as soon as an occupied hour has an
observation, bool(row) on the multi-element Series raises ValueError and the
loop never completes. -/
def weatherLoopE (start_time : Nat) (weather_dict : Nat → Option Nat) :
    List Nat → Except String Bool
  | [] => .ok true
  | k :: rest =>
    match weather_dict (start_time + 60 * k) with
    | none => weatherLoopE start_time weather_dict rest
    | some _ => .error "ValueError: The truth value of a Series is ambiguous"

/-- Error-aware weather_constraint: the source either returns True (every
occupied hour missing from the index, or no occupied hours) or raises
ValueError at the first present observation; it can never return False and
never consults the preferences. -/
def weather_constraintE (start_time : Nat) (dur : Nat) (_preferences : List Pref)
    (weather_dict : Nat → Option Nat) : Except String Bool :=
  weatherLoopE start_time weather_dict (List.range (dur / 2))

/-- no_overlap: end1 = start1 + timedelta(hours=dur1) = start1 + 30 * dur1
minutes (durations in half-hour units); true when one activity ends before
the other starts. -/
def no_overlap (start1 start2 : Nat) (dur1 dur2 : Nat) : Bool :=
  (start1 + 30 * dur1 ≤ start2) || (start2 + 30 * dur2 ≤ start1)

/-- Candidate start times computed in solve_csp for one activity. In the
Python code duration = int(activity duration * 2) = dur half-hour units, the
loop bound is int((end - start).total_seconds() // 1800) - duration, the
candidate is start + timedelta(minutes=hour * 60), and possible_end is the
candidate + timedelta(minutes=duration * 60) = candidate + 60 * dur minutes. -/
def possible_start_times (start_datetime end_datetime : Nat) (dur : Nat) : List Nat :=
  (List.range ((end_datetime - start_datetime) / 30 - dur)).filterMap fun hour =>
    if start_datetime + 60 * hour + 60 * dur ≤ end_datetime then
      some (start_datetime + 60 * hour)
    else none

/-- All total assignments in depth-first order: activities in input order,
candidate starts in domain order. -/
def assignmentsList (start_datetime end_datetime : Nat) :
    List Activity → List (List (Activity × Nat))
  | [] => [[]]
  | a :: rest =>
    (possible_start_times start_datetime end_datetime a.dur).flatMap fun s =>
      (assignmentsList start_datetime end_datetime rest).map fun asg => (a, s) :: asg

/-- The no_overlap constraint instantiated on every pair i < j of assigned
activities, as posted by the double loop in solve_csp. -/
def pairwiseNoOverlap : List (Activity × Nat) → Bool
  | [] => true
  | p :: rest =>
    rest.all (fun q => no_overlap p.2 q.2 p.1.dur q.1.dur) && pairwiseNoOverlap rest

/-- A total assignment is consistent when every activity satisfies its
weather constraint and every pair of activities satisfies no_overlap. -/
def satisfiesConstraints (weather_dict : Nat → Option Nat)
    (asg : List (Activity × Nat)) : Bool :=
  asg.all (fun p => weather_constraint p.2 p.1.dur p.1.prefs weather_dict)
    && pairwiseNoOverlap asg

/-- problem.getSolution(), raise-free paths only: none when there are no
variables, otherwise the first consistent total assignment in depth-first
order, or none when no consistent assignment exists. In the source an empty
domain makes addVariable raise ValueError before search, and evaluating a
weather constraint on a present observation raises during preprocessing;
solve_cspE models those raising paths. -/
def getSolution (weather_dict : Nat → Option Nat)
    (start_datetime end_datetime : Nat) (activities : List Activity) :
    Option (List (Activity × Nat)) :=
  if activities.isEmpty then none
  else (assignmentsList start_datetime end_datetime activities).find?
    (satisfiesConstraints weather_dict)

/-- Result of solve_csp: either a schedule of (name, start, end) entries, or
the infeasibility message "No feasible schedule found.". -/
inductive SolveResult where
  | schedule : List (String × Nat × Nat) → SolveResult
  | infeasible : SolveResult
  deriving DecidableEq

/-- solve_csp: build domains, post the constraints, ask the solver, and on
success convert the assignment to name, start, end with
end = start + timedelta(minutes=duration * 60) = start + 30 * dur minutes. -/
def solve_csp (activities : List Activity) (weather_dict : Nat → Option Nat)
    (start_datetime end_datetime : Nat) : SolveResult :=
  match getSolution weather_dict start_datetime end_datetime activities with
  | none => .infeasible
  | some asg => .schedule (asg.map fun p => (p.1.name, p.2, p.2 + 30 * p.1.dur))

/-- Error-aware solve_csp. In the source, addVariable raises
ValueError("Domain is empty") at the first activity whose candidate list is
empty, before any constraint is evaluated; otherwise getSolution preprocesses
the unary weather constraints by calling them on every domain value, which
raises the Series-truthiness ValueError as soon as any candidate start of any
activity has an occupied hour with an observation present. Only when neither
raise fires does the search run, and then every weather constraint evaluated
True, so the returned result coincides with the raise-free model solve_csp.
Neither exception is caught anywhere in the program. -/
def solve_cspE (activities : List Activity) (weather_dict : Nat → Option Nat)
    (start_datetime end_datetime : Nat) : Except String SolveResult :=
  if activities.any (fun a =>
      (possible_start_times start_datetime end_datetime a.dur).isEmpty) then
    .error "ValueError: Domain is empty"
  else if activities.any (fun a =>
      (possible_start_times start_datetime end_datetime a.dur).any fun s =>
        match weather_constraintE s a.dur a.prefs weather_dict with
        | .error _ => true
        | .ok _ => false) then
    .error "ValueError: The truth value of a Series is ambiguous"
  else
    .ok (solve_csp activities weather_dict start_datetime end_datetime)

/-- A second definition following the words of the spec (section 4.2): the
category thresholds Sunny: chance < 20, Cloudy: 20 ≤ chance ≤ 70, Rainy:
chance > 70, for comparison with condition_map. -/
def specCategorySat (preference : Pref) (chance_of_rain : Nat) : Prop :=
  match preference with
  | .Sunny => chance_of_rain < 20
  | .Cloudy => 20 ≤ chance_of_rain ∧ chance_of_rain ≤ 70
  | .Rainy => chance_of_rain > 70

/-- Per-category agreement between the coded predicate and the spec
thresholds. -/
lemma condition_map_iff (p : Pref) (c : Nat) :
    condition_map p c = true ↔ specCategorySat p c := by
  cases p <;> simp [condition_map, specCategorySat]

/-- A consistent assignment found by getSolution satisfies the whole
constraint set. -/
lemma satisfies_of_getSolution {w : Nat → Option Nat} {sd ed : Nat}
    {acts : List Activity} {asg : List (Activity × Nat)}
    (h : getSolution w sd ed acts = some asg) :
    satisfiesConstraints w asg = true := by
  unfold getSolution at h
  split at h
  · cases h
  · exact List.find?_some h

/-- The Boolean pairwise check is the Pairwise predicate on the assignment. -/
lemma pairwise_of_pairwiseNoOverlap {l : List (Activity × Nat)}
    (h : pairwiseNoOverlap l = true) :
    l.Pairwise fun p q => no_overlap p.2 q.2 p.1.dur q.1.dur = true := by
  induction l with
  | nil => exact List.Pairwise.nil
  | cons p rest ih =>
    unfold pairwiseNoOverlap at h
    rw [Bool.and_eq_true] at h
    obtain ⟨h1, h2⟩ := h
    exact List.Pairwise.cons (fun q hq => List.all_eq_true.mp h1 q hq) (ih h2)

/-- filterMap by a strictly monotone partial function preserves strict
ascending order. -/
lemma pairwise_lt_filterMap {f : Nat → Option Nat}
    (hf : ∀ a b x y, a < b → f a = some x → f b = some y → x < y) :
    ∀ l : List Nat, l.Pairwise (· < ·) → (l.filterMap f).Pairwise (· < ·) := by
  intro l hl
  induction l with
  | nil => exact List.Pairwise.nil
  | cons a rest ih =>
    rw [List.pairwise_cons] at hl
    rw [List.filterMap_cons]
    cases hfa : f a with
    | none => exact ih hl.2
    | some x =>
      refine List.Pairwise.cons ?_ (ih hl.2)
      intro y hy
      obtain ⟨b, hb, hfb⟩ := List.mem_filterMap.mp hy
      exact hf a b x y (hl.1 b hb) hfa hfb

/-- A duration strictly longer than the window empties the domain: the range
bound int((end - start) // 1800) - duration is then zero. -/
lemma possible_start_times_eq_nil {sd ed dur : Nat} (h : ed - sd < 30 * dur) :
    possible_start_times sd ed dur = [] := by
  have hq := Nat.div_mul_le_self (ed - sd) 30
  have h1 : (ed - sd) / 30 ≤ dur := by omega
  unfold possible_start_times
  rw [Nat.sub_eq_zero_of_le h1]
  rfl

/-- C5: for every chance of rain and preference list, the compatibility
predicate is true iff at least one preferred category accepts the value under
the spec thresholds (Sunny: < 20, Cloudy: 20..70 inclusive, Rainy: > 70); the
boundary values 20 and 70 belong to Cloudy only, and an empty preference list
yields false. -/
theorem weather_condition_check_spec (chance : Nat) (prefs : List Pref) :
    (weather_condition_check chance prefs = true ↔
      ∃ p ∈ prefs, specCategorySat p chance) ∧
    weather_condition_check chance [] = false ∧
    (condition_map Pref.Sunny 20 = false ∧ condition_map Pref.Cloudy 20 = true ∧
      condition_map Pref.Rainy 20 = false) ∧
    (condition_map Pref.Sunny 70 = false ∧ condition_map Pref.Cloudy 70 = true ∧
      condition_map Pref.Rainy 70 = false) := by
  refine ⟨?_, rfl, by decide, by decide⟩
  unfold weather_condition_check
  rw [List.any_eq_true]
  constructor
  · rintro ⟨p, hp, hc⟩
    exact ⟨p, hp, (condition_map_iff p chance).mp hc⟩
  · rintro ⟨p, hp, hc⟩
    exact ⟨p, hp, (condition_map_iff p chance).mpr hc⟩

/-- C9: the three categories partition the chance-of-rain range — for every
value at least one category accepts, no two categories accept at once, and
the full preference list accepts every value. -/
theorem weather_categories_partition (chance : Nat) :
    (condition_map Pref.Sunny chance = true ∨ condition_map Pref.Cloudy chance = true ∨
      condition_map Pref.Rainy chance = true) ∧
    ¬(condition_map Pref.Sunny chance = true ∧ condition_map Pref.Cloudy chance = true) ∧
    ¬(condition_map Pref.Sunny chance = true ∧ condition_map Pref.Rainy chance = true) ∧
    ¬(condition_map Pref.Cloudy chance = true ∧ condition_map Pref.Rainy chance = true) ∧
    weather_condition_check chance [Pref.Sunny, Pref.Cloudy, Pref.Rainy] = true := by
  simp only [condition_map, weather_condition_check, List.any_cons, List.any_nil,
    Bool.or_eq_true, Bool.and_eq_true, decide_eq_true_eq, Bool.or_false]
  omega

/-- C10: an activity with duration below one hour (one half-hour unit, the
smallest the widget offers) is never checked against the weather: the hour
loop runs int(duration) = 0 times, so the constraint holds for every start,
preference list and weather index. -/
theorem subhour_duration_unchecked (start_time dur : Nat) (prefs : List Pref)
    (w : Nat → Option Nat) (hdur : dur < 2) :
    weather_constraint start_time dur prefs w = true := by
  unfold weather_constraint
  rw [Nat.div_eq_of_lt hdur]
  rfl

/-- Witness for subhour_duration_unchecked: a half-hour activity passes the
weather constraint even though its sole preference (Rainy) rejects the
recorded chance of rain 0 at its start hour. -/
theorem subhour_duration_unchecked_witness :
    weather_constraint 0 1 [Pref.Rainy] (fun _ => some 0) = true :=
  subhour_duration_unchecked 0 1 [Pref.Rainy] (fun _ => some 0) (by decide)

/-- C1 failing input: one activity named A, duration 1 hour (dur = 2),
preference Sunny, window 0..240 minutes, and an observation with chance of
rain 10 at every hour of the window. The claimed behaviour — the solver
checks the compatibility predicate against each looked-up observation and
returns a weather-satisfying schedule — is the program intent, but the code
raises ValueError at the first present observation (truthiness of the
multi-element pandas Series row), during constraint preprocessing, so it
crashes instead of ever evaluating weather_condition_check on present
data. -/
theorem series_truthiness_crash :
    weather_constraintE 0 2 [Pref.Sunny]
        (fun t => if t < 240 then some 10 else none) =
      .error "ValueError: The truth value of a Series is ambiguous" ∧
    solve_cspE [⟨"A", 2, [Pref.Sunny]⟩]
        (fun t => if t < 240 then some 10 else none) 0 240 =
      .error "ValueError: The truth value of a Series is ambiguous" :=
  ⟨rfl, rfl⟩

/-- Counterexample to C2: with an everywhere-empty weather index, a one-hour
activity occupies hour offset 0 (0 < int(duration) = 2 / 2), the lookup at
that hour yields none, yet the weather constraint evaluates to true — the
missing hour is silently skipped rather than failing the constraint. -/
theorem missing_hour_fail_open_cex :
    weather_constraint 0 2 [Pref.Sunny] (fun _ => none) = true ∧
    (fun _ => (none : Option Nat)) (0 + 60 * 0) = none ∧ 0 < 2 / 2 :=
  ⟨rfl, rfl, by decide⟩

/-- C2 amended: a required hour with no observation is silently skipped
(fail-open); in particular, when every occupied hour is missing from the
index, the weather constraint is satisfied for any preference list. -/
theorem missing_hours_skipped (start_time dur : Nat) (prefs : List Pref)
    (w : Nat → Option Nat)
    (h : ∀ k, k < dur / 2 → w (start_time + 60 * k) = none) :
    weather_constraint start_time dur prefs w = true := by
  unfold weather_constraint
  rw [List.all_eq_true]
  intro k hk
  have hm := h k (List.mem_range.mp hk)
  simp only [hm]

/-- Witness for missing_hours_skipped at a concrete one-hour activity over an
empty index. -/
theorem missing_hours_skipped_witness :
    weather_constraint 0 2 [Pref.Sunny] (fun _ => none) = true :=
  missing_hours_skipped 0 2 [Pref.Sunny] (fun _ => none) (fun _ _ => rfl)

/-- Counterexample to C3: for a one-hour activity (dur = 2 half-hour units)
in the window 0..240 minutes, the generated domain is [0, 60, 120] — hourly
steps, not the 30-minute granularity, and truncated by the doubled-duration
fit check — whereas the claimed domain would contain 30 (30 is the window
start plus one 30-minute granule and 30 + 60 ≤ 240). -/
theorem domain_granularity_cex :
    possible_start_times 0 240 2 = [0, 60, 120] ∧
    ¬(30 ∈ possible_start_times 0 240 2) ∧ 30 + 60 ≤ 240 := by decide

/-- C3 amended: the domain is exactly the ascending sequence of timestamps
t = window.start + k * 60 minutes for integer k below
(window.end - window.start) / 30 - dur such that t + 60 * dur ≤ window.end,
where dur = int(duration_hours * 2): the step is one hour and the fit check
uses the duration doubled (60 * dur minutes instead of 30 * dur). -/
theorem domain_characterization (sd ed dur : Nat) :
    (∀ t, t ∈ possible_start_times sd ed dur ↔
      ∃ k, k < (ed - sd) / 30 - dur ∧ t = sd + 60 * k ∧ t + 60 * dur ≤ ed) ∧
    (possible_start_times sd ed dur).Pairwise (· < ·) := by
  constructor
  · intro t
    unfold possible_start_times
    rw [List.mem_filterMap]
    constructor
    · rintro ⟨k, hk, hf⟩
      rw [List.mem_range] at hk
      by_cases hle : sd + 60 * k + 60 * dur ≤ ed
      · rw [if_pos hle] at hf
        cases hf
        exact ⟨k, hk, rfl, hle⟩
      · rw [if_neg hle] at hf
        cases hf
    · rintro ⟨k, hk, rfl, hle⟩
      exact ⟨k, List.mem_range.mpr hk, by rw [if_pos hle]⟩
  · unfold possible_start_times
    refine pairwise_lt_filterMap ?_ _ (List.pairwise_lt_range _)
    intro a b x y hab hfa hfb
    by_cases ha : sd + 60 * a + 60 * dur ≤ ed
    · by_cases hb : sd + 60 * b + 60 * dur ≤ ed
      · rw [if_pos ha] at hfa
        rw [if_pos hb] at hfb
        cases hfa
        cases hfb
        omega
      · rw [if_neg hb] at hfb
        cases hfb
    · rw [if_neg ha] at hfa
      cases hfa

/-- C4: the no_overlap constraint holds exactly when one activity ends before
the other starts, and consequently any returned schedule is pairwise
non-overlapping: for every pair of entries, end of one is at most start of
the other. -/
theorem no_overlap_soundness (acts : List Activity) (w : Nat → Option Nat)
    (sd ed : Nat) (sched : List (String × Nat × Nat))
    (hrun : solve_csp acts w sd ed = SolveResult.schedule sched) :
    (∀ s1 s2 d1 d2 : Nat,
      no_overlap s1 s2 d1 d2 = true ↔ s1 + 30 * d1 ≤ s2 ∨ s2 + 30 * d2 ≤ s1) ∧
    sched.Pairwise (fun x y => x.2.2 ≤ y.2.1 ∨ y.2.2 ≤ x.2.1) := by
  constructor
  · intro s1 s2 d1 d2
    unfold no_overlap
    rw [Bool.or_eq_true, decide_eq_true_eq, decide_eq_true_eq]
  · unfold solve_csp at hrun
    cases hsol : getSolution w sd ed acts with
    | none =>
      rw [hsol] at hrun
      cases hrun
    | some asg =>
      rw [hsol] at hrun
      have hsat := satisfies_of_getSolution hsol
      unfold satisfiesConstraints at hsat
      rw [Bool.and_eq_true] at hsat
      have hpw := pairwise_of_pairwiseNoOverlap hsat.2
      cases hrun
      rw [List.pairwise_map]
      refine hpw.imp ?_
      intro p q hpq
      unfold no_overlap at hpq
      rw [Bool.or_eq_true, decide_eq_true_eq, decide_eq_true_eq] at hpq
      exact hpq

/-- Witness for no_overlap_soundness: a two-activity run that returns the
schedule A at 0..60, B at 60..120, instantiating the constraint
characterisation at that pair. -/
theorem no_overlap_soundness_witness :
    no_overlap 0 60 2 2 = true ↔ 0 + 30 * 2 ≤ 60 ∨ 60 + 30 * 2 ≤ 0 :=
  (no_overlap_soundness [⟨"A", 2, [Pref.Sunny]⟩, ⟨"B", 2, [Pref.Sunny]⟩]
      (fun t => if t < 240 then some 10 else none) 0 240
      [("A", 0, 60), ("B", 60, 120)] (by decide)).1 0 60 2 2

/-- Counterexample to C6: an activity of two hours (dur = 4) in a one-hour
window has an empty candidate list, so addVariable raises
ValueError("Domain is empty") before any search — the run crashes with an
uncaught exception rather than surfacing a validation error distinct from
infeasibility and from a crash. -/
theorem oversized_duration_crash_cex :
    solve_cspE [⟨"hike", 4, [Pref.Sunny]⟩] (fun _ => some 0) 0 60 =
      .error "ValueError: Domain is empty" := rfl

/-- C6 amended: when some activity duration exceeds the window length, its
domain is empty and addVariable raises ValueError("Domain is empty"), so the
solve crashes before search begins — no validation-error signal and no
infeasibility signal is produced. -/
theorem oversized_duration_crash (acts : List Activity)
    (w : Nat → Option Nat) (sd ed : Nat) (a : Activity) (ha : a ∈ acts)
    (hd : ed - sd < 30 * a.dur) :
    solve_cspE acts w sd ed = .error "ValueError: Domain is empty" := by
  have hdom := @possible_start_times_eq_nil sd ed a.dur hd
  have hany : (acts.any fun b => (possible_start_times sd ed b.dur).isEmpty) = true :=
    List.any_eq_true.mpr ⟨a, ha, by rw [hdom]; rfl⟩
  unfold solve_cspE
  rw [if_pos hany]

/-- Witness for oversized_duration_crash at a concrete oversized instance. -/
theorem oversized_duration_crash_witness :
    solve_cspE [⟨"picnic", 4, [Pref.Sunny]⟩] (fun _ => some 0) 0 60 =
      .error "ValueError: Domain is empty" :=
  oversized_duration_crash [⟨"picnic", 4, [Pref.Sunny]⟩] (fun _ => some 0)
    0 60 ⟨"picnic", 4, [Pref.Sunny]⟩ (List.mem_singleton.mpr rfl) (by decide)

/-- C7: the solver is deterministic — two runs on identical activities,
weather index, and window return identical results. -/
theorem solve_csp_deterministic (acts1 acts2 : List Activity)
    (w1 w2 : Nat → Option Nat) (sd1 sd2 ed1 ed2 : Nat)
    (hacts : acts1 = acts2) (hw : w1 = w2) (hsd : sd1 = sd2) (hed : ed1 = ed2) :
    solve_csp acts1 w1 sd1 ed1 = solve_csp acts2 w2 sd2 ed2 := by
  subst hacts hw hsd hed
  rfl

/-- Witness for solve_csp_deterministic at a concrete repeated run. -/
theorem solve_csp_deterministic_witness :
    solve_csp [⟨"walk", 2, [Pref.Cloudy]⟩] (fun _ => some 30) 0 120 =
      solve_csp [⟨"walk", 2, [Pref.Cloudy]⟩] (fun _ => some 30) 0 120 :=
  solve_csp_deterministic _ _ _ _ _ _ _ _ rfl rfl rfl rfl

/-- C8: on success the schedule builder maps each assigned activity to
(start, end) with end = start + duration — in minutes,
start + 30 * dur = start + (dur / 2 whole hours plus a possible half hour),
covering fractional durations. -/
theorem schedule_end_eq_start_add_duration (acts : List Activity)
    (w : Nat → Option Nat) (sd ed : Nat) (asg : List (Activity × Nat))
    (hsol : getSolution w sd ed acts = some asg) :
    solve_csp acts w sd ed =
      SolveResult.schedule (asg.map fun p => (p.1.name, p.2, p.2 + 30 * p.1.dur)) := by
  unfold solve_csp
  rw [hsol]

/-- Witness for schedule_end_eq_start_add_duration: a 1.5-hour activity
(dur = 3) scheduled at 0 ends at 90 minutes. -/
theorem schedule_end_eq_start_add_duration_witness :
    solve_csp [⟨"A", 3, [Pref.Sunny]⟩] (fun t => if t < 240 then some 10 else none)
      0 240 = SolveResult.schedule [("A", 0, 90)] :=
  schedule_end_eq_start_add_duration [⟨"A", 3, [Pref.Sunny]⟩]
    (fun t => if t < 240 then some 10 else none) 0 240
    [(⟨"A", 3, [Pref.Sunny]⟩, 0)] (by decide)
